import Mathlib

/-!
Verification of the meeting-room booking backend (BookingModel).

Shallow embedding of the repository's controllers:
- `src/backend/controllers/bookingController.js` (createBooking, updateBooking,
  cancelBooking),
- the admin controller (`createBookingAdmin`, `deleteBooking`),
- the OTP controller (`sendOtp`, `cleanupExpiredOtps`).

The relational store is modelled as plain lists of records (`rooms`,
`room_bookings`, `otp_storage`).  Timestamps are integers (milliseconds since
the epoch: JavaScript `Date` values compare by that number, and the SQL
DATETIME comparisons in the queries are order comparisons on those values).
Each handler is a pure function from the request plus the current store to an
HTTP response and the store after the handler ran; transactional handlers
roll back on every error path, which in the pure embedding simply means the
input store is returned unchanged.  The outcome of the outbound
Microsoft-Graph email call is an explicit parameter, since the provider is an
external collaborator.
-/

namespace BookingModel

/-- Row of the `rooms` table. -/
structure Room where
  id : Int
  name : String
  capacity : Int
  deriving DecidableEq, Repr

/-- Row of the `room_bookings` table, with the columns used by the
controllers. -/
structure Booking where
  event_id : String
  room_id : Int
  room_name : String
  subject : String
  description : Option String
  organizer_email : String
  start_datetime : Int
  end_datetime : Int
  total_participants : Int
  internal_participants : Option Int
  external_participants : Option Int
  meeting_type : String
  attendee_emails : String
  status : String
  created_at : Int
  updated_at : Option Int
  cancelled_at : Option Int
  deriving DecidableEq, Repr

/-- The `res.status(...).json({success, message})` envelope every handler
sends. -/
structure HttpResponse where
  status : Nat
  success : Bool
  message : String
  deriving DecidableEq, Repr

/-- Outcome of a call to the `sendEmail` helper of
`bookingController.js`: the helper returns without doing anything when the
Graph credentials are not configured (`skipped`), resolves on success (`ok`),
and throws `Failed to send email notification.` on a provider error
(`failed`). -/
inductive EmailOutcome where
  | ok
  | skipped
  | failed
  deriving DecidableEq, Repr

/-- Observable side effects of a handler run, in order: committed database
writes and attempted notification sends. -/
inductive Action where
  | dbInsert (eventId : String)
  | dbUpdate (eventId : String)
  | emailSend (recipient : String)
  deriving DecidableEq, Repr

/-- JavaScript `x || null` on an optional string field: the empty string is
falsy and also collapses to NULL. -/
def jsOrNullStr (o : Option String) : Option String :=
  match o with
  | some s => if s == "" then none else some s
  | none => none

/-- JavaScript `x || null` on an optional integer field: `0` is falsy and
collapses to NULL. -/
def jsOrNullInt (o : Option Int) : Option Int :=
  match o with
  | some n => if n == 0 then none else some n
  | none => none

/-- JavaScript `x || d` on an optional string field with default `d`. -/
def jsOrDefault (o : Option String) (d : String) : String :=
  match o with
  | some s => if s == "" then d else s
  | none => d

/-- Body of `POST /api/bookings/create` as destructured by `createBooking`. -/
structure CreateBookingRequest where
  room_id : Int
  room_name : String
  subject : String
  description : Option String
  organizer_email : String
  start_datetime : Int
  end_datetime : Int
  total_participants : Int
  internal_participants : Option Int
  external_participants : Option Int
  meeting_type : Option String
  attendee_emails : Option String
  deriving DecidableEq, Repr

/-- The truthiness test
`!room_id || !subject || !organizer_email || !start_datetime ||
!end_datetime || !total_participants` of `createBooking`; the datetime
fields arrive as nonempty ISO strings and are absorbed by the typing. -/
def CreateBookingRequest.missingRequired (r : CreateBookingRequest) : Bool :=
  r.room_id == 0 || r.subject == "" || r.organizer_email == "" ||
    r.total_participants == 0

/-- The availability check of `createBooking`
(`SELECT COUNT(*) FROM room_bookings WHERE room_id = @roomId AND
status = 'confirmed' AND (start_datetime < @end_datetime AND
end_datetime > @start_datetime)`). -/
def conflictCount (bookings : List Booking) (rid : Int) (s e : Int) : Nat :=
  bookings.countP (fun b =>
    b.room_id == rid && b.status == "confirmed" &&
      decide (b.start_datetime < e) && decide (b.end_datetime > s))

/-- The confirmed row `createBooking` inserts on success (`freshId` is the
`crypto.randomUUID()` value, `now` the `new Date()` taken for
`created_at`). -/
def newBookingOf (req : CreateBookingRequest) (freshId : String) (now : Int) :
    Booking where
  event_id := freshId
  room_id := req.room_id
  room_name := req.room_name
  subject := req.subject
  description := jsOrNullStr req.description
  organizer_email := req.organizer_email
  start_datetime := req.start_datetime
  end_datetime := req.end_datetime
  total_participants := req.total_participants
  internal_participants := jsOrNullInt req.internal_participants
  external_participants := jsOrNullInt req.external_participants
  meeting_type := jsOrDefault req.meeting_type "in-person"
  attendee_emails := jsOrDefault req.attendee_emails "[]"
  status := "confirmed"
  created_at := now
  updated_at := none
  cancelled_at := none

/-- `bookingController.createBooking`: field-presence check, room lookup,
capacity gate, availability check, insert, then the confirmation email.
Every database request goes straight to the connection pool (there is no
transaction in this handler), so once the INSERT has run the row stays
committed even when the email send afterwards throws: that branch answers
500 with the thrown message but performs no further write. -/
def createBooking (rooms : List Room) (bookings : List Booking)
    (req : CreateBookingRequest) (freshId : String) (now : Int)
    (outcome : EmailOutcome) :
    HttpResponse × List Booking × List Action :=
  if req.missingRequired then
    (⟨400, false, "Missing required booking fields."⟩, bookings, [])
  else
    match rooms.find? (fun r => r.id == req.room_id) with
    | none => (⟨404, false, "Room not found."⟩, bookings, [])
    | some room =>
      if room.capacity < req.total_participants then
        (⟨400, false,
          "Total participants exceed room capacity of " ++
            toString room.capacity ++ "."⟩, bookings, [])
      else if 0 < conflictCount bookings req.room_id req.start_datetime
          req.end_datetime then
        (⟨409, false, "The room is already booked for the selected time slot."⟩,
          bookings, [])
      else
        let bookings' := bookings ++ [newBookingOf req freshId now]
        match outcome with
        | .failed =>
          (⟨500, false, "Failed to send email notification."⟩, bookings',
            [Action.dbInsert freshId, Action.emailSend req.organizer_email])
        | .skipped =>
          (⟨201, true, "Booking created and confirmed successfully!"⟩,
            bookings', [Action.dbInsert freshId])
        | .ok =>
          (⟨201, true, "Booking created and confirmed successfully!"⟩,
            bookings',
            [Action.dbInsert freshId, Action.emailSend req.organizer_email])

/-- Body of `PUT /api/bookings/:eventId` as destructured by
`updateBooking`. -/
structure UpdateBookingRequest where
  room_id : Int
  subject : String
  description : Option String
  organizer_email : String
  start_datetime : Int
  end_datetime : Int
  total_participants : Int
  internal_participants : Option Int
  external_participants : Option Int
  meeting_type : Option String
  attendee_emails : Option String
  deriving DecidableEq, Repr

/-- The truthiness test
`!eventId || !room_id || !subject || !organizer_email || !start_datetime ||
!end_datetime || !total_participants` of `updateBooking`. -/
def updateMissingRequired (eventId : String) (r : UpdateBookingRequest) :
    Bool :=
  eventId == "" || r.room_id == 0 || r.subject == "" ||
    r.organizer_email == "" || r.total_participants == 0

/-- The availability check of `updateBooking`, which additionally filters
`event_id != @currentEventId` so the booking being rescheduled never counts
against itself. -/
def conflictCountExcluding (bookings : List Booking) (rid : Int) (s e : Int)
    (eid : String) : Nat :=
  bookings.countP (fun b =>
    b.room_id == rid && b.status == "confirmed" && b.event_id != eid &&
      decide (b.start_datetime < e) && decide (b.end_datetime > s))

/-- The column assignments of the UPDATE statement in `updateBooking`: room,
denormalized room name (re-read from the `rooms` table), subject,
description, organizer email, time range, participant counts, meeting type,
attendee list and the `updated_at = GETUTCDATE()` stamp.  `status`,
`event_id`, `created_at` and `cancelled_at` are untouched. -/
def applyReschedule (req : UpdateBookingRequest) (newRoomName : String)
    (now : Int) (b : Booking) : Booking :=
  { b with
    room_id := req.room_id
    room_name := newRoomName
    subject := req.subject
    description := jsOrNullStr req.description
    organizer_email := req.organizer_email
    start_datetime := req.start_datetime
    end_datetime := req.end_datetime
    total_participants := req.total_participants
    internal_participants := jsOrNullInt req.internal_participants
    external_participants := jsOrNullInt req.external_participants
    meeting_type := jsOrDefault req.meeting_type "in-person"
    attendee_emails := jsOrDefault req.attendee_emails "[]"
    updated_at := some now }

/-- `bookingController.updateBooking` (reschedule).  The whole handler runs
inside one `sql.Transaction`; every failing gate rolls back, so in the pure
embedding each error branch returns the store unchanged.  Gates in source
order: field presence, the original booking must exist with
`status = 'confirmed'`, the target room must exist, capacity, then the
self-excluding availability check; only then the UPDATE
(`WHERE event_id = @updEventId`) runs and the transaction commits.  The
source checks `rowsAffected` after the UPDATE and rolls back when it is `0`;
that test is transcribed before the pure list update, which is equivalent
because the rollback discards the UPDATE.  The reschedule email goes out
after the commit, so an email failure answers 500 without undoing the
committed change. -/
def updateBooking (rooms : List Room) (bookings : List Booking)
    (eventId : String) (req : UpdateBookingRequest) (now : Int)
    (outcome : EmailOutcome) :
    HttpResponse × List Booking × List Action :=
  if updateMissingRequired eventId req then
    (⟨400, false, "Missing required fields for booking update."⟩, bookings, [])
  else
    match bookings.find?
        (fun b => b.event_id == eventId && b.status == "confirmed") with
    | none =>
      (⟨404, false, "Original booking not found or already cancelled."⟩,
        bookings, [])
    | some _ =>
      match rooms.find? (fun r => r.id == req.room_id) with
      | none =>
        (⟨404, false, "The specified room could not be found."⟩, bookings, [])
      | some room =>
        if room.capacity < req.total_participants then
          (⟨400, false,
            "New total participants exceed room capacity of " ++
              toString room.capacity ++ "."⟩, bookings, [])
        else if 0 < conflictCountExcluding bookings req.room_id
            req.start_datetime req.end_datetime eventId then
          (⟨409, false,
            "The room is already booked for the new time slot (conflict detected)."⟩,
            bookings, [])
        else if bookings.countP (fun b => b.event_id == eventId) == 0 then
          (⟨404, false, "Booking to update not found."⟩, bookings, [])
        else
          let bookings' := bookings.map (fun b =>
            if b.event_id == eventId then applyReschedule req room.name now b
            else b)
          match outcome with
          | .failed =>
            (⟨500, false, "Failed to send email notification."⟩, bookings',
              [Action.dbUpdate eventId, Action.emailSend req.organizer_email])
          | .skipped =>
            (⟨200, true, "Booking updated successfully!"⟩, bookings',
              [Action.dbUpdate eventId])
          | .ok =>
            (⟨200, true, "Booking updated successfully!"⟩, bookings',
              [Action.dbUpdate eventId, Action.emailSend req.organizer_email])

/-- `bookingController.cancelBooking`.  Transactional.  The lookup requires
`event_id`, the caller-supplied organizer email and `status = 'confirmed'`
to match in one WHERE clause, so a wrong email and a nonexistent booking are
answered by the same 404 with the same message.  On a match the UPDATE sets
`status = 'cancelled'` and stamps `cancelled_at`/`updated_at` on every row
with that `event_id`; the cancellation email follows the commit. -/
def cancelBooking (bookings : List Booking) (eventId organizerEmail : String)
    (now : Int) (outcome : EmailOutcome) : HttpResponse × List Booking :=
  if eventId == "" || organizerEmail == "" then
    (⟨400, false, "Event ID and organizer email are required for cancellation."⟩,
      bookings)
  else
    match bookings.find? (fun b =>
        b.event_id == eventId && b.organizer_email == organizerEmail &&
          b.status == "confirmed") with
    | none =>
      (⟨404, false,
        "Booking not found or not eligible for cancellation by this email."⟩,
        bookings)
    | some _ =>
      if bookings.countP (fun b => b.event_id == eventId) == 0 then
        (⟨400, false, "Failed to update booking status to cancelled."⟩,
          bookings)
      else
        let bookings' := bookings.map (fun b =>
          if b.event_id == eventId then
            { b with status := "cancelled", cancelled_at := some now,
                     updated_at := some now }
          else b)
        match outcome with
        | .failed => (⟨500, false, "Failed to send email notification."⟩, bookings')
        | _ => (⟨200, true, "Booking cancelled successfully."⟩, bookings')

/-- Body of `POST /api/admin/bookings` as destructured by
`createBookingAdmin` (unlike the ordinary create, `room_name` is itself a
required field and there is no `description`). -/
structure AdminCreateRequest where
  room_id : Int
  room_name : String
  subject : String
  organizer_email : String
  start_datetime : Int
  end_datetime : Int
  total_participants : Int
  internal_participants : Option Int
  external_participants : Option Int
  meeting_type : Option String
  attendee_emails : Option String
  deriving DecidableEq, Repr

/-- The truthiness test of `createBookingAdmin`. -/
def adminMissingRequired (r : AdminCreateRequest) : Bool :=
  r.room_id == 0 || r.room_name == "" || r.subject == "" ||
    r.organizer_email == "" || r.total_participants == 0

/-- The confirmed row `createBookingAdmin` inserts (its INSERT has no
`description` column, and the participant counts are passed through without
the `|| null` collapsing used by the ordinary create). -/
def adminBookingOf (req : AdminCreateRequest) (freshId : String) (now : Int) :
    Booking where
  event_id := freshId
  room_id := req.room_id
  room_name := req.room_name
  subject := req.subject
  description := none
  organizer_email := req.organizer_email
  start_datetime := req.start_datetime
  end_datetime := req.end_datetime
  total_participants := req.total_participants
  internal_participants := req.internal_participants
  external_participants := req.external_participants
  meeting_type := jsOrDefault req.meeting_type "in-person"
  attendee_emails := jsOrDefault req.attendee_emails "[]"
  status := "confirmed"
  created_at := now
  updated_at := none
  cancelled_at := none

/-- `adminController.createBookingAdmin`: after the field-presence check it
goes straight to the INSERT.  The handler never queries the `rooms` table
(its signature here takes no room list) and performs no availability check:
there is no room-existence, capacity or conflict gate in the source. -/
def createBookingAdmin (bookings : List Booking) (req : AdminCreateRequest)
    (freshId : String) (now : Int) : HttpResponse × List Booking :=
  if adminMissingRequired req then
    (⟨400, false, "Missing required fields for admin booking."⟩, bookings)
  else
    (⟨201, true, "Booking created by admin successfully."⟩,
      bookings ++ [adminBookingOf req freshId now])

/-- Row of the `otp_storage` table (`is_verified` is a BIT written as 0/1 by
the controller, modelled as Bool). -/
structure OtpRecord where
  email : String
  otp : String
  expires_at : Int
  created_at : Int
  is_verified : Bool
  deriving DecidableEq, Repr

/-- Little-endian decimal digits of a natural number as characters, the
embedding of JavaScript `Number.prototype.toString()` used on the value of
`crypto.randomInt(100000, 999999)`. -/
def decDigitsRev (n : Nat) : List Char :=
  if n < 10 then [Char.ofNat (48 + n)]
  else Char.ofNat (48 + n % 10) :: decDigitsRev (n / 10)
termination_by n
decreasing_by exact Nat.div_lt_self (by omega) (by omega)

/-- Decimal string of a natural number (most significant digit first). -/
def natToDecString (n : Nat) : String :=
  String.mk (decDigitsRev n).reverse

/-- The MERGE statement of `sendOtp`: matched on `email`, an existing record
is updated in place (`otp`, `expires_at`, `created_at` replaced,
`is_verified = 0`); otherwise a fresh record is inserted with
`is_verified = 0`.  SQL MERGE requires at most one matching target row; the
map-based transcription agrees with it whenever emails are unique in the
table. -/
def mergeOtpUpsert (table : List OtpRecord) (email otp : String)
    (expiresAt createdAt : Int) : List OtpRecord :=
  if table.any (fun r => r.email == email) then
    table.map (fun r =>
      if r.email == email then
        { email := r.email, otp := otp, expires_at := expiresAt,
          created_at := createdAt, is_verified := false }
      else r)
  else
    table ++ [{ email := email, otp := otp, expires_at := expiresAt,
                created_at := createdAt, is_verified := false }]

/-- `otpController.sendOtp`: presence check on `email`, then
`otp = crypto.randomInt(100000, 999999).toString()` (here `code` is that
random integer), `expiresAt = Date.now() + 5 * 60 * 1000`, the MERGE upsert,
and finally the OTP email.  The MERGE is not in a transaction, so the stored
record stays even when the email send afterwards throws (that branch answers
500). -/
def sendOtp (table : List OtpRecord) (email : String) (code : Nat) (now : Int)
    (emailOk : Bool) : HttpResponse × List OtpRecord :=
  if email == "" then (⟨400, false, "Email is required."⟩, table)
  else
    let table' := mergeOtpUpsert table email (natToDecString code)
      (now + 5 * 60 * 1000) now
    if emailOk then (⟨200, true, "OTP sent successfully."⟩, table')
    else (⟨500, false, "Failed to send OTP."⟩, table')

/-- `otpController.cleanupExpiredOtps`:
`DELETE FROM otp_storage WHERE expires_at < @currentTime`; the reported
`deletedCount` is the statement's `rowsAffected`.  Result: response,
remaining table, deleted count. -/
def cleanupExpiredOtps (table : List OtpRecord) (now : Int) :
    HttpResponse × List OtpRecord × Nat :=
  let deletedCount := table.countP (fun r => decide (r.expires_at < now))
  let table' := table.filter (fun r => !decide (r.expires_at < now))
  (⟨200, true,
    "Cleaned up " ++ toString deletedCount ++ " expired OTP records."⟩,
    table', deletedCount)

/-- One database statement issued by a handler, with the fact whether it runs
on a `sql.Request` bound to an explicit `sql.Transaction` (`true`) or
directly on the connection pool (`false`). -/
structure DbOp where
  opKind : String
  tbl : String
  inTransaction : Bool
  deriving DecidableEq, Repr

/-- The database statements of `createBooking` in source order: the room
lookup, the availability (conflict) check, and the INSERT.  Each is issued
via `bookingController.dbPool.request()`; the handler never constructs a
`sql.Transaction`. -/
def createBookingDbOps : List DbOp :=
  [⟨"select", "rooms", false⟩,
   ⟨"select", "room_bookings", false⟩,
   ⟨"insert", "room_bookings", false⟩]

/-- The database statements of `updateBooking` in source order, all issued on
`new sql.Request(transaction)` after `transaction.begin()`. -/
def updateBookingDbOps : List DbOp :=
  [⟨"select", "room_bookings", true⟩,
   ⟨"select", "rooms", true⟩,
   ⟨"select", "room_bookings", true⟩,
   ⟨"update", "room_bookings", true⟩]

/-- The database statements of `cancelBooking` in source order, all issued on
`new sql.Request(transaction)` after `transaction.begin()`. -/
def cancelBookingDbOps : List DbOp :=
  [⟨"select", "room_bookings", true⟩,
   ⟨"update", "room_bookings", true⟩]

/-- Interval overlap as written in the spec and in the SQL predicates:
`A.start < B.end AND A.end > B.start` on half-open `[start, end)`
intervals.  The predicate is symmetric in `a` and `b`. -/
def overlapping (a b : Booking) : Prop :=
  a.start_datetime < b.end_datetime ∧ a.end_datetime > b.start_datetime

instance (a b : Booking) : Decidable (overlapping a b) :=
  inferInstanceAs (Decidable (_ ∧ _))

/-- The no-overlap invariant: no two distinct rows of `room_bookings` that
are both `confirmed` and in the same room have overlapping intervals. -/
def noConfirmedOverlap (bookings : List Booking) : Prop :=
  bookings.Pairwise (fun a b =>
    a.room_id = b.room_id → a.status = "confirmed" → b.status = "confirmed" →
      ¬ overlapping a b)

instance (bookings : List Booking) : Decidable (noConfirmedOverlap bookings) := by
  unfold noConfirmedOverlap
  infer_instance

theorem find?_eq_some_of_unique {α : Type} (p : α → Bool) {l : List α} {b : α}
    (hb : b ∈ l) (hpb : p b = true)
    (huniq : ∀ c ∈ l, p c = true → c = b) :
    l.find? p = some b := by
  induction l with
  | nil => cases hb
  | cons a t ih =>
    by_cases hpa : p a = true
    · have ha : a = b := huniq a (List.mem_cons_self a t) hpa
      subst ha
      simp [List.find?, hpa]
    · have hbt : b ∈ t := by
        rcases List.mem_cons.mp hb with h | h
        · exact absurd (h ▸ hpb) hpa
        · exact h
      have : t.find? p = some b :=
        ih hbt (fun c hc hpc => huniq c (List.mem_cons_of_mem a hc) hpc)
      simpa [List.find?, hpa] using this

/-- Mapping a function over a list that fixes every element whose key is not
`eid` preserves `Pairwise R`, provided the keys are unique and the modified
element stands in relation `R` (in both orders) to every element with a
different key. -/
theorem pairwise_map_update_of_key (R : Booking → Booking → Prop)
    (l : List Booking) (eid : String) (f : Booking → Booking)
    (hfix : ∀ b, b.event_id ≠ eid → f b = b)
    (hnodup : (l.map Booking.event_id).Nodup)
    (hpair : l.Pairwise R)
    (hleft : ∀ a ∈ l, ∀ b ∈ l, a.event_id = eid → b.event_id ≠ eid →
      R (f a) b)
    (hright : ∀ a ∈ l, ∀ b ∈ l, a.event_id ≠ eid → b.event_id = eid →
      R a (f b)) :
    (l.map f).Pairwise R := by
  induction l with
  | nil => simp
  | cons a t ih =>
    rw [List.map_cons, List.pairwise_cons]
    rw [List.pairwise_cons] at hpair
    rw [List.map_cons, List.nodup_cons] at hnodup
    constructor
    · intro y hy
      rcases List.mem_map.mp hy with ⟨b, hbt, rfl⟩
      by_cases hak : a.event_id = eid
      · have hbk : b.event_id ≠ eid := by
          intro hbe
          have hmem : b.event_id ∈ t.map Booking.event_id :=
            List.mem_map_of_mem Booking.event_id hbt
          rw [hbe, ← hak] at hmem
          exact hnodup.1 hmem
        rw [hfix b hbk]
        exact hleft a (List.mem_cons_self a t) b (List.mem_cons_of_mem a hbt)
          hak hbk
      · by_cases hbk : b.event_id = eid
        · have := hright a (List.mem_cons_self a t) b
            (List.mem_cons_of_mem a hbt) hak hbk
          rwa [hfix a hak]
        · rw [hfix a hak, hfix b hbk]
          exact hpair.1 b hbt
    · exact ih hnodup.2 hpair.2
        (fun x hx y hy => hleft x (List.mem_cons_of_mem a hx) y
          (List.mem_cons_of_mem a hy))
        (fun x hx y hy => hright x (List.mem_cons_of_mem a hx) y
          (List.mem_cons_of_mem a hy))

/-- `conflictCount` is zero exactly when no confirmed booking of the room
overlaps the candidate interval. -/
theorem conflictCount_eq_zero {bookings : List Booking} {rid : Int}
    {s e : Int} :
    conflictCount bookings rid s e = 0 ↔
      ∀ b ∈ bookings, b.room_id = rid → b.status = "confirmed" →
        ¬ (b.start_datetime < e ∧ b.end_datetime > s) := by
  unfold conflictCount
  rw [List.countP_eq_zero]
  constructor
  · intro h b hb hrid hst hov
    exact h b hb (by simp [hrid, hst, hov.1, hov.2])
  · intro h b hb hby
    simp only [Bool.and_eq_true, beq_iff_eq, decide_eq_true_eq] at hby
    exact h b hb hby.1.1.1 hby.1.1.2 ⟨hby.1.2, hby.2⟩

/-- `conflictCountExcluding` is zero exactly when no other confirmed booking
of the room overlaps the candidate interval. -/
theorem conflictCountExcluding_eq_zero {bookings : List Booking} {rid : Int}
    {s e : Int} {eid : String} :
    conflictCountExcluding bookings rid s e eid = 0 ↔
      ∀ b ∈ bookings, b.room_id = rid → b.status = "confirmed" →
        b.event_id ≠ eid → ¬ (b.start_datetime < e ∧ b.end_datetime > s) := by
  unfold conflictCountExcluding
  rw [List.countP_eq_zero]
  constructor
  · intro h b hb hrid hst hne hov
    exact h b hb (by simp [hrid, hst, hne, hov.1, hov.2])
  · intro h b hb hby
    simp only [Bool.and_eq_true, beq_iff_eq, bne_iff_ne, ne_eq,
      decide_eq_true_eq] at hby
    exact h b hb hby.1.1.1.1 hby.1.1.1.2 hby.1.1.2 ⟨hby.1.2, hby.2⟩

theorem decDigitsRev_length (k : Nat) :
    ∀ n, 10 ^ k ≤ n → n < 10 ^ (k + 1) → (decDigitsRev n).length = k + 1 := by
  induction k with
  | zero =>
    intro n h1 h2
    unfold decDigitsRev
    rw [if_pos (by simpa using h2)]
    rfl
  | succ k ih =>
    intro n h1 h2
    have h10 : 10 ≤ n := le_trans (Nat.pow_le_pow_right (by omega) (by omega) :
      10 ^ 1 ≤ 10 ^ (k + 1)) (by simpa using h1)
    unfold decDigitsRev
    rw [if_neg (by omega)]
    have hlo : 10 ^ k ≤ n / 10 := by
      rw [Nat.le_div_iff_mul_le (by omega)]
      calc 10 ^ k * 10 = 10 ^ (k + 1) := (pow_succ 10 k).symm
        _ ≤ n := h1
    have hhi : n / 10 < 10 ^ (k + 1) := by
      rw [Nat.div_lt_iff_lt_mul (by omega)]
      calc n < 10 ^ (k + 2) := h2
        _ = 10 ^ (k + 1) * 10 := pow_succ 10 (k + 1)
    simp [ih (n / 10) hlo hhi]

/-- A number in `[100000, 1000000)` prints as exactly six decimal digits. -/
theorem natToDecString_length_six (n : Nat) (h1 : 100000 ≤ n)
    (h2 : n < 1000000) : (natToDecString n).length = 6 := by
  have := decDigitsRev_length 5 n (by norm_num [h1]) (by norm_num [h2])
  simpa [natToDecString, String.length] using this

theorem applyReschedule_room_id (req : UpdateBookingRequest) (n : String)
    (now : Int) (b : Booking) :
    (applyReschedule req n now b).room_id = req.room_id := rfl

theorem applyReschedule_start (req : UpdateBookingRequest) (n : String)
    (now : Int) (b : Booking) :
    (applyReschedule req n now b).start_datetime = req.start_datetime := rfl

theorem applyReschedule_end (req : UpdateBookingRequest) (n : String)
    (now : Int) (b : Booking) :
    (applyReschedule req n now b).end_datetime = req.end_datetime := rfl

theorem applyReschedule_status (req : UpdateBookingRequest) (n : String)
    (now : Int) (b : Booking) :
    (applyReschedule req n now b).status = b.status := rfl

theorem applyReschedule_email (req : UpdateBookingRequest) (n : String)
    (now : Int) (b : Booking) :
    (applyReschedule req n now b).organizer_email = req.organizer_email := rfl

/-- `createBooking` either leaves `room_bookings` unchanged (some gate
rejected) or appends the new confirmed row, and in the latter case the
availability check found no confirmed overlap. -/
theorem createBooking_state (rooms : List Room) (bookings : List Booking)
    (req : CreateBookingRequest) (freshId : String) (now : Int)
    (outcome : EmailOutcome) :
    (createBooking rooms bookings req freshId now outcome).2.1 = bookings ∨
    ((createBooking rooms bookings req freshId now outcome).2.1 =
        bookings ++ [newBookingOf req freshId now] ∧
      conflictCount bookings req.room_id req.start_datetime
        req.end_datetime = 0) := by
  unfold createBooking
  split
  · left; rfl
  · split
    · left; rfl
    · split
      · left; rfl
      · split
        · left; rfl
        · right
          constructor
          · cases outcome <;> rfl
          · omega

/-- `updateBooking` either leaves `room_bookings` unchanged (rollback) or
rewrites exactly the rows whose `event_id` matches, and in the latter case
the self-excluding availability check found no confirmed overlap. -/
theorem updateBooking_state (rooms : List Room) (bookings : List Booking)
    (eid : String) (req : UpdateBookingRequest) (now : Int)
    (outcome : EmailOutcome) :
    (updateBooking rooms bookings eid req now outcome).2.1 = bookings ∨
    (∃ room : Room,
      (updateBooking rooms bookings eid req now outcome).2.1 =
        bookings.map (fun b =>
          if b.event_id == eid then applyReschedule req room.name now b
          else b) ∧
      conflictCountExcluding bookings req.room_id req.start_datetime
        req.end_datetime eid = 0) := by
  unfold updateBooking
  split
  · left; rfl
  · split
    · left; rfl
    · split
      · left; rfl
      · rename_i room _
        split
        · left; rfl
        · split
          · left; rfl
          · split
            · left; rfl
            · right
              refine ⟨room, ?_, by omega⟩
              cases outcome <;> rfl

/-- Claim C1: for every pair of distinct bookings in the same room that are
both confirmed, their half-open intervals do not overlap
(`NOT (A.start < B.end AND A.end > B.start)`); this invariant is preserved
by every `createBooking` and every `updateBooking` run, because each rejects
with a conflict error whenever a confirmed booking in the target room
satisfies `existing.start < new.end AND existing.end > new.start` (so
bookings that merely abut are accepted, the overlap predicate being strict).
The update part assumes the `event_id` column is duplicate-free, as the
generated UUIDs make it. -/
theorem noConfirmedOverlap_preserved (rooms : List Room)
    (bookings : List Booking) (req : CreateBookingRequest)
    (ureq : UpdateBookingRequest) (eid freshId : String) (now : Int)
    (outcome : EmailOutcome)
    (hinv : noConfirmedOverlap bookings)
    (hnodup : (bookings.map Booking.event_id).Nodup) :
    noConfirmedOverlap
      (createBooking rooms bookings req freshId now outcome).2.1 ∧
    noConfirmedOverlap
      (updateBooking rooms bookings eid ureq now outcome).2.1 := by
  constructor
  · rcases createBooking_state rooms bookings req freshId now outcome with
      h | ⟨h, hc⟩
    · rw [h]; exact hinv
    · rw [h]
      unfold noConfirmedOverlap at hinv ⊢
      rw [List.pairwise_append]
      refine ⟨hinv, by simp, ?_⟩
      intro a ha b hb
      rw [List.mem_singleton] at hb
      subst hb
      intro hroom hconfa _ hov
      refine conflictCount_eq_zero.mp hc a ha ?_ hconfa ⟨?_, ?_⟩
      · exact hroom
      · exact hov.1
      · exact hov.2
  · rcases updateBooking_state rooms bookings eid ureq now outcome with
      h | ⟨room, h, hc⟩
    · rw [h]; exact hinv
    · rw [h]
      unfold noConfirmedOverlap at hinv ⊢
      apply pairwise_map_update_of_key _ _ eid _ ?_ hnodup hinv ?_ ?_
      · intro b hb
        simp [hb]
      · intro a _ b hb hak hbk
        simp only [hak, beq_self_eq_true, if_true]
        intro hroom _ hconfb hov
        rw [applyReschedule_room_id] at hroom
        unfold overlapping at hov
        rw [applyReschedule_start, applyReschedule_end] at hov
        exact conflictCountExcluding_eq_zero.mp hc b hb hroom.symm hconfb hbk
          ⟨hov.2, hov.1⟩
      · intro a ha b _ hak hbk
        simp only [hbk, beq_self_eq_true, if_true]
        intro hroom hconfa _ hov
        rw [applyReschedule_room_id] at hroom
        unfold overlapping at hov
        rw [applyReschedule_start, applyReschedule_end] at hov
        exact conflictCountExcluding_eq_zero.mp hc a ha hroom hconfa hak
          ⟨hov.1, hov.2⟩

/-- Evaluation of `updateBooking` on the success path: all gates pass, the
matching rows are rewritten, the transaction commits, and the reschedule
email succeeds. -/
theorem updateBooking_success (rooms : List Room) (bookings : List Booking)
    (eid : String) (req : UpdateBookingRequest) (now : Int) (b : Booking)
    (room : Room)
    (hmiss : updateMissingRequired eid req = false)
    (hfind : bookings.find?
      (fun c => c.event_id == eid && c.status == "confirmed") = some b)
    (hroomfind : rooms.find? (fun r => r.id == req.room_id) = some room)
    (hcap : ¬ room.capacity < req.total_participants)
    (hzero : conflictCountExcluding bookings req.room_id req.start_datetime
      req.end_datetime eid = 0) :
    updateBooking rooms bookings eid req now EmailOutcome.ok =
      (⟨200, true, "Booking updated successfully!"⟩,
       bookings.map (fun c =>
         if c.event_id == eid then applyReschedule req room.name now c
         else c),
       [Action.dbUpdate eid, Action.emailSend req.organizer_email]) := by
  have hbmem := List.mem_of_find?_eq_some hfind
  have hbp := List.find?_some hfind
  simp only [Bool.and_eq_true, beq_iff_eq] at hbp
  have hcount : bookings.countP (fun c => c.event_id == eid) ≠ 0 := by
    have : 0 < bookings.countP (fun c => c.event_id == eid) := by
      rw [List.countP_pos_iff]
      exact ⟨b, hbmem, by simp [hbp.1]⟩
    omega
  unfold updateBooking
  rw [hmiss, hfind, hroomfind]
  simp only [Bool.false_eq_true, if_false]
  rw [if_neg hcap, if_neg (by omega), if_neg (by simp [hcount])]

/-- Claim C5: when no confirmed booking carries the requested `event_id`
(the booking does not exist, or only cancelled rows carry the id),
`updateBooking` answers the not-found error and performs no write (the
transaction is rolled back, so the store is returned unchanged and the
effect trace is empty).  The field-presence gate is assumed to pass, since
a malformed body is answered 400 before the lookup. -/
theorem update_rejects_missing_or_cancelled (rooms : List Room)
    (bookings : List Booking) (eid : String) (req : UpdateBookingRequest)
    (now : Int) (outcome : EmailOutcome)
    (hmiss : updateMissingRequired eid req = false)
    (hnone : ∀ b ∈ bookings, b.event_id = eid → b.status ≠ "confirmed") :
    updateBooking rooms bookings eid req now outcome =
      (⟨404, false, "Original booking not found or already cancelled."⟩,
       bookings, []) := by
  have hfind : bookings.find?
      (fun c => c.event_id == eid && c.status == "confirmed") = none := by
    rw [List.find?_eq_none]
    intro c hc
    simp only [Bool.and_eq_true, beq_iff_eq, not_and]
    intro h1
    exact hnone c hc h1
  unfold updateBooking
  rw [hmiss, hfind]
  simp

/-- Claim C4: the reschedule overlap check excludes the booking being
rescheduled itself (`event_id != @currentEventId`), so a confirmed booking
can be moved to a time range that overlaps only its own current interval:
with every other confirmed booking of the target room clear of the new
range, `updateBooking` does not produce a conflict rejection but succeeds.
Uniqueness of `event_id` values (they are generated UUIDs) is assumed. -/
theorem update_excludes_self_from_conflict (rooms : List Room)
    (bookings : List Booking) (eid : String) (req : UpdateBookingRequest)
    (now : Int) (b : Booking) (room : Room)
    (hmiss : updateMissingRequired eid req = false)
    (hnodup : (bookings.map Booking.event_id).Nodup)
    (hb : b ∈ bookings) (hbid : b.event_id = eid)
    (hconf : b.status = "confirmed")
    (hroomfind : rooms.find? (fun r => r.id == req.room_id) = some room)
    (hcap : ¬ room.capacity < req.total_participants)
    (hself : b.start_datetime < req.end_datetime ∧
      b.end_datetime > req.start_datetime)
    (hothers : ∀ c ∈ bookings, c.event_id ≠ eid → c.status = "confirmed" →
      c.room_id = req.room_id →
      ¬ (c.start_datetime < req.end_datetime ∧
         c.end_datetime > req.start_datetime)) :
    (updateBooking rooms bookings eid req now EmailOutcome.ok).1 =
      ⟨200, true, "Booking updated successfully!"⟩ := by
  have hfind : bookings.find?
      (fun c => c.event_id == eid && c.status == "confirmed") = some b := by
    apply find?_eq_some_of_unique _ hb (by simp [hbid, hconf])
    intro c hc hpc
    simp only [Bool.and_eq_true, beq_iff_eq] at hpc
    exact List.inj_on_of_nodup_map hnodup hc hb (by rw [hpc.1, hbid])
  have hzero : conflictCountExcluding bookings req.room_id req.start_datetime
      req.end_datetime eid = 0 :=
    conflictCountExcluding_eq_zero.mpr
      (fun c hc hcroom hcconf hcne => hothers c hc hcne hcconf hcroom)
  rw [updateBooking_success rooms bookings eid req now b room hmiss hfind
    hroomfind hcap hzero]

/-- Claim C8: `updateBooking` performs no organizer-identity check: whenever
its gates (existence, room, capacity, conflict) pass, the request succeeds
no matter what `organizer_email` the caller supplies — nothing relates it to
the stored organizer — and the stored row's `organizer_email` is
unconditionally overwritten with the caller-supplied value.  By contrast
`cancelBooking` puts the caller-supplied email into its WHERE clause, so
with a mismatched email the same booking cannot be cancelled. -/
theorem update_has_no_identity_check (rooms : List Room)
    (bookings : List Booking) (eid : String) (req : UpdateBookingRequest)
    (now : Int) (b : Booking) (room : Room)
    (hmiss : updateMissingRequired eid req = false)
    (hnodup : (bookings.map Booking.event_id).Nodup)
    (hb : b ∈ bookings) (hbid : b.event_id = eid)
    (hconf : b.status = "confirmed")
    (hroomfind : rooms.find? (fun r => r.id == req.room_id) = some room)
    (hcap : ¬ room.capacity < req.total_participants)
    (hzero : conflictCountExcluding bookings req.room_id req.start_datetime
      req.end_datetime eid = 0) :
    (updateBooking rooms bookings eid req now EmailOutcome.ok).1 =
      ⟨200, true, "Booking updated successfully!"⟩ ∧
    applyReschedule req room.name now b ∈
      (updateBooking rooms bookings eid req now EmailOutcome.ok).2.1 ∧
    (applyReschedule req room.name now b).organizer_email =
      req.organizer_email ∧
    (b.organizer_email ≠ req.organizer_email →
      cancelBooking bookings eid req.organizer_email now EmailOutcome.ok =
        (⟨404, false,
          "Booking not found or not eligible for cancellation by this email."⟩,
         bookings)) := by
  have hpresence := hmiss
  simp only [updateMissingRequired, Bool.or_eq_false_iff,
    beq_eq_false_iff_ne, ne_eq] at hpresence
  have hfind : bookings.find?
      (fun c => c.event_id == eid && c.status == "confirmed") = some b := by
    apply find?_eq_some_of_unique _ hb (by simp [hbid, hconf])
    intro c hc hpc
    simp only [Bool.and_eq_true, beq_iff_eq] at hpc
    exact List.inj_on_of_nodup_map hnodup hc hb (by rw [hpc.1, hbid])
  have hrun := updateBooking_success rooms bookings eid req now b room hmiss
    hfind hroomfind hcap hzero
  refine ⟨by rw [hrun], ?_, applyReschedule_email req room.name now b, ?_⟩
  · rw [hrun]
    have : (fun c => if c.event_id == eid then
        applyReschedule req room.name now c else c) b =
        applyReschedule req room.name now b := by simp [hbid]
    exact this ▸ List.mem_map_of_mem _ hb
  · intro hne
    have hcfind : bookings.find? (fun c =>
        c.event_id == eid && c.organizer_email == req.organizer_email &&
          c.status == "confirmed") = none := by
      rw [List.find?_eq_none]
      intro c hc
      simp only [Bool.and_eq_true, beq_iff_eq, not_and]
      intro hxy _
      have hcb : c = b :=
        List.inj_on_of_nodup_map hnodup hc hb (by rw [hxy.1, hbid])
      exact hne (by rw [← hcb]; exact hxy.2)
    have e1 : (eid == "" || req.organizer_email == "") = false := by
      simp [hpresence.1.1.1.1, hpresence.1.2]
    unfold cancelBooking
    rw [e1, hcfind]
    simp

/-- Claim C6: cancelling an existing confirmed booking with a wrong
organizer email produces exactly the same response (status, flag and
message) as cancelling a nonexistent `event_id`, and both runs leave
`room_bookings` unchanged — the WHERE clause makes the two cases
indistinguishable.  Empty strings are excluded because they are caught by
the field-presence 400 gate instead. -/
theorem cancel_wrong_email_indistinguishable (bookings : List Booking)
    (eid1 eid2 email1 email2 : String) (b : Booking) (now1 now2 : Int)
    (o1 o2 : EmailOutcome)
    (hnodup : (bookings.map Booking.event_id).Nodup)
    (hb : b ∈ bookings) (hbid : b.event_id = eid1)
    (hconf : b.status = "confirmed")
    (hwrong : b.organizer_email ≠ email1)
    (h1 : eid1 ≠ "") (h2 : email1 ≠ "") (h3 : eid2 ≠ "") (h4 : email2 ≠ "")
    (hnon : ∀ c ∈ bookings, c.event_id ≠ eid2) :
    cancelBooking bookings eid1 email1 now1 o1 =
      cancelBooking bookings eid2 email2 now2 o2 ∧
    (cancelBooking bookings eid1 email1 now1 o1).2 = bookings := by
  have hf1 : bookings.find? (fun c =>
      c.event_id == eid1 && c.organizer_email == email1 &&
        c.status == "confirmed") = none := by
    rw [List.find?_eq_none]
    intro c hc
    simp only [Bool.and_eq_true, beq_iff_eq, not_and]
    intro hxy _
    have hcb : c = b :=
      List.inj_on_of_nodup_map hnodup hc hb (by rw [hxy.1, hbid])
    exact hwrong (by rw [← hcb]; exact hxy.2)
  have hf2 : bookings.find? (fun c =>
      c.event_id == eid2 && c.organizer_email == email2 &&
        c.status == "confirmed") = none := by
    rw [List.find?_eq_none]
    intro c hc
    simp [hnon c hc]
  have e1 : (eid1 == "" || email1 == "") = false := by simp [h1, h2]
  have e2 : (eid2 == "" || email2 == "") = false := by simp [h3, h4]
  unfold cancelBooking
  rw [e1, e2, hf1, hf2]
  simp

/-- Claim C7: in `createBooking` the INSERT always precedes the email
attempt and the reverse order never occurs: the effect trace of every run is
empty (a gate rejected, nothing persisted, nothing sent), or the insert
alone (email skipped for missing configuration), or the insert followed by
the email attempt.  Whenever the insert occurred, the new row is in the
final store for every email outcome; in particular a failed send after the
insert answers 500 but the committed row is untouched. -/
theorem create_persists_before_notify (rooms : List Room)
    (bookings : List Booking) (req : CreateBookingRequest) (freshId : String)
    (now : Int) (outcome : EmailOutcome) :
    ((createBooking rooms bookings req freshId now outcome).2.2 = [] ∧
      (createBooking rooms bookings req freshId now outcome).2.1 =
        bookings) ∨
    (((createBooking rooms bookings req freshId now outcome).2.2 =
        [Action.dbInsert freshId] ∧ outcome = EmailOutcome.skipped) ∨
      (createBooking rooms bookings req freshId now outcome).2.2 =
        [Action.dbInsert freshId, Action.emailSend req.organizer_email]) ∧
    ((createBooking rooms bookings req freshId now outcome).2.1 =
        bookings ++ [newBookingOf req freshId now] ∧
      (outcome = EmailOutcome.failed →
        (createBooking rooms bookings req freshId now outcome).1.status =
          500)) := by
  unfold createBooking
  split
  · exact Or.inl ⟨rfl, rfl⟩
  · split
    · exact Or.inl ⟨rfl, rfl⟩
    · split
      · exact Or.inl ⟨rfl, rfl⟩
      · split
        · exact Or.inl ⟨rfl, rfl⟩
        · cases outcome with
          | ok => exact Or.inr ⟨Or.inr rfl, rfl, by intro h; cases h⟩
          | skipped => exact Or.inr ⟨Or.inl ⟨rfl, rfl⟩, rfl, by intro h; cases h⟩
          | failed => exact Or.inr ⟨Or.inr rfl, rfl, fun _ => rfl⟩

/-- Claim C2 counterexample: no database statement of `createBooking` runs
inside a transaction — in particular neither its conflict check nor its
insert does; the handler issues each statement directly on the connection
pool. -/
theorem create_check_insert_not_transactional :
    createBookingDbOps.any (fun op => op.inTransaction) = false := by decide

/-- Claim C2 amended: `createBooking` issues its room lookup, conflict check
and insert as three separate pool requests with no enclosing transaction,
the conflict check still coming before the insert; the transactional
handlers of the controller are `updateBooking` and `cancelBooking`, whose
statements all run on a request bound to one `sql.Transaction`. -/
theorem create_not_transactional_update_cancel_transactional :
    createBookingDbOps.any (fun op => op.inTransaction) = false ∧
    createBookingDbOps.drop 1 =
      [⟨"select", "room_bookings", false⟩, ⟨"insert", "room_bookings", false⟩] ∧
    updateBookingDbOps.all (fun op => op.inTransaction) = true ∧
    cancelBookingDbOps.all (fun op => op.inTransaction) = true := by decide

/-- Confirmed booking used to refute claim C3: room 1 is booked for the
half-open interval `[0, 100)`. -/
def bookingC3 : Booking where
  event_id := "ev-1"
  room_id := 1
  room_name := "Alpha"
  subject := "Standup"
  description := none
  organizer_email := "a@b.com"
  start_datetime := 0
  end_datetime := 100
  total_participants := 5
  internal_participants := none
  external_participants := none
  meeting_type := "in-person"
  attendee_emails := "[]"
  status := "confirmed"
  created_at := 0
  updated_at := none
  cancelled_at := none

/-- Admin request used to refute claim C3: same room 1, interval `[50, 150)`
overlapping `bookingC3`. -/
def adminReqC3 : AdminCreateRequest where
  room_id := 1
  room_name := "Alpha"
  subject := "Takeover"
  organizer_email := "x@y.com"
  start_datetime := 50
  end_datetime := 150
  total_participants := 1000
  internal_participants := none
  external_participants := none
  meeting_type := none
  attendee_emails := none

/-- Claim C3 counterexample: the requested interval overlaps a confirmed
booking of the same room — the ordinary create's conflict gate fires on
exactly this state — yet `createBookingAdmin` answers 201 and inserts the
overlapping confirmed row anyway; it applies no conflict (nor room-existence
nor capacity) gate before its insert. -/
theorem admin_create_inserts_despite_conflict :
    0 < conflictCount [bookingC3] adminReqC3.room_id
      adminReqC3.start_datetime adminReqC3.end_datetime ∧
    createBookingAdmin [bookingC3] adminReqC3 "ev-2" 7 =
      (⟨201, true, "Booking created by admin successfully."⟩,
       [bookingC3, adminBookingOf adminReqC3 "ev-2" 7]) := by decide

/-- Claim C3 amended: `createBookingAdmin` applies none of the ordinary
create's gates.  It never reads the `rooms` table and runs no availability
query, so there is no room-existence, capacity or conflict check: whenever
the required fields are present it unconditionally inserts a confirmed
booking — even one overlapping an existing confirmed booking in the same
room — and reports success. -/
theorem admin_create_unconditional_insert (bookings : List Booking)
    (req : AdminCreateRequest) (freshId : String) (now : Int)
    (hmiss : adminMissingRequired req = false) :
    createBookingAdmin bookings req freshId now =
      (⟨201, true, "Booking created by admin successfully."⟩,
       bookings ++ [adminBookingOf req freshId now]) := by
  unfold createBookingAdmin
  rw [hmiss]
  simp

/-- The record a `sendOtp` run stores for `email`: the printed random code,
expiry five minutes after issuance, the issuance time, and the verified
flag cleared. -/
def otpRecordOf (email : String) (code : Nat) (now : Int) : OtpRecord where
  email := email
  otp := natToDecString code
  expires_at := now + 5 * 60 * 1000
  created_at := now
  is_verified := false

/-- Behaviour of the MERGE upsert under the one-record-per-email invariant:
the new record is present, it is the only record for that email, records of
other emails are untouched, and the invariant is preserved. -/
theorem mergeOtpUpsert_spec (table : List OtpRecord) (email otp : String)
    (expiresAt createdAt : Int)
    (hnodup : (table.map OtpRecord.email).Nodup) :
    ((⟨email, otp, expiresAt, createdAt, false⟩ : OtpRecord) ∈
      mergeOtpUpsert table email otp expiresAt createdAt) ∧
    (∀ r ∈ mergeOtpUpsert table email otp expiresAt createdAt,
      r.email = email → r = ⟨email, otp, expiresAt, createdAt, false⟩) ∧
    (∀ r ∈ mergeOtpUpsert table email otp expiresAt createdAt,
      r.email ≠ email → r ∈ table) ∧
    ((mergeOtpUpsert table email otp expiresAt createdAt).map
      OtpRecord.email).Nodup := by
  unfold mergeOtpUpsert
  by_cases hany : table.any (fun r => r.email == email) = true
  · rw [if_pos hany]
    have hemails : ∀ r : OtpRecord,
        ((if r.email = email then
            ({ email := r.email, otp := otp, expires_at := expiresAt,
               created_at := createdAt, is_verified := false } : OtpRecord)
          else r)).email = r.email := by
      intro r
      by_cases h : r.email = email <;> simp [h]
    refine ⟨?_, ?_, ?_, ?_⟩
    · rcases List.any_eq_true.mp hany with ⟨r0, hr0, hr0e⟩
      rw [beq_iff_eq] at hr0e
      have : (fun r => if r.email == email then
          ({ email := r.email, otp := otp, expires_at := expiresAt,
             created_at := createdAt, is_verified := false } : OtpRecord)
          else r) r0 = ⟨email, otp, expiresAt, createdAt, false⟩ := by
        simp [hr0e]
      exact this ▸ List.mem_map_of_mem _ hr0
    · intro r hr hre
      rcases List.mem_map.mp hr with ⟨x, _, rfl⟩
      by_cases hx : x.email = email
      · simp [hx]
      · simp only [hx, beq_iff_eq, if_neg hx] at hre ⊢
        exact absurd hre hx
    · intro r hr hre
      rcases List.mem_map.mp hr with ⟨x, hx, rfl⟩
      by_cases hxe : x.email = email
      · exact absurd (by simp [hxe]) hre
      · simpa [hxe] using hx
    · rw [List.map_map]
      have : (table.map fun x => (OtpRecord.email ∘ fun r =>
          if r.email == email then
            ({ email := r.email, otp := otp, expires_at := expiresAt,
               created_at := createdAt, is_verified := false } : OtpRecord)
          else r) x) = table.map OtpRecord.email := by
        apply List.map_congr_left
        intro x _
        by_cases hx : x.email = email <;> simp [hx]
      rw [this]
      exact hnodup
  · rw [if_neg hany]
    have hnomem : email ∉ table.map OtpRecord.email := by
      intro hmem
      rcases List.mem_map.mp hmem with ⟨x, hx, hxe⟩
      exact hany (List.any_eq_true.mpr ⟨x, hx, by simp [hxe]⟩)
    refine ⟨List.mem_append_right _ (by simp), ?_, ?_, ?_⟩
    · intro r hr hre
      rcases List.mem_append.mp hr with h | h
      · exact absurd (hre ▸ List.mem_map_of_mem OtpRecord.email h) hnomem
      · simpa using h
    · intro r hr hre
      rcases List.mem_append.mp hr with h | h
      · exact h
      · rw [List.mem_singleton] at h
        exact absurd (by rw [h]) hre
    · rw [List.map_append]
      rw [List.nodup_append]
      refine ⟨hnodup, by simp, ?_⟩
      intro x hx
      simp only [List.map_cons, List.map_nil, List.mem_singleton]
      intro hxe
      exact hnomem (hxe ▸ hx)

/-- Claim C9: `sendOtp` stores for the given email a numeric code of exactly
six digits (`crypto.randomInt(100000, 999999)` printed in decimal) with an
expiry exactly five minutes (`5 * 60 * 1000` ms) after issuance, and keeps a
single record per email: an existing record for that email is overwritten in
place — code, expiry and creation time replaced and the verified flag reset
— while any other email's record is untouched; with no prior record a fresh
one is inserted with the flag cleared.  This holds whether or not the OTP
email afterwards succeeds, since the MERGE is not transactional. -/
theorem sendOtp_stores_single_fresh_code (table : List OtpRecord)
    (email : String) (code : Nat) (now : Int) (emailOk : Bool)
    (hcode1 : 100000 ≤ code) (hcode2 : code < 999999) (hemail : email ≠ "")
    (hnodup : (table.map OtpRecord.email).Nodup) :
    (natToDecString code).length = 6 ∧
    (otpRecordOf email code now).expires_at =
      (otpRecordOf email code now).created_at + 5 * 60 * 1000 ∧
    otpRecordOf email code now ∈ (sendOtp table email code now emailOk).2 ∧
    (∀ r ∈ (sendOtp table email code now emailOk).2,
      r.email = email → r = otpRecordOf email code now) ∧
    (∀ r ∈ (sendOtp table email code now emailOk).2,
      r.email ≠ email → r ∈ table) ∧
    (((sendOtp table email code now emailOk).2).map OtpRecord.email).Nodup := by
  have hsnd : (sendOtp table email code now emailOk).2 =
      mergeOtpUpsert table email (natToDecString code)
        (now + 5 * 60 * 1000) now := by
    unfold sendOtp
    rw [if_neg (by simp [hemail])]
    cases emailOk <;> simp
  have hm := mergeOtpUpsert_spec table email (natToDecString code)
    (now + 5 * 60 * 1000) now hnodup
  rw [hsnd]
  exact ⟨natToDecString_length_six code hcode1 (by omega), rfl,
    hm.1, hm.2.1, hm.2.2.1, hm.2.2.2⟩

theorem countP_not_add_countP {α : Type} (p : α → Bool) (l : List α) :
    l.countP (fun a => !p a) + l.countP p = l.length := by
  induction l with
  | nil => rfl
  | cons a t ih =>
    rw [List.countP_cons, List.countP_cons, List.length_cons]
    cases h : p a <;> simp [h] <;> omega

/-- Claim C10: `cleanupExpiredOtps` at time `now` deletes exactly the
records with `expires_at < now`: a record survives iff it is in the table
and not yet expired, the survivors are an untouched subsequence of the
original table, the reported count is exactly the number of records
removed, and an immediately repeated run (same `now`, so no new
expirations) reports 0 deleted. -/
theorem cleanup_deletes_exactly_expired (table : List OtpRecord)
    (now : Int) :
    (∀ r : OtpRecord, r ∈ (cleanupExpiredOtps table now).2.1 ↔
      r ∈ table ∧ ¬ r.expires_at < now) ∧
    (cleanupExpiredOtps table now).2.1.Sublist table ∧
    (cleanupExpiredOtps table now).2.1.length +
      (cleanupExpiredOtps table now).2.2 = table.length ∧
    (cleanupExpiredOtps (cleanupExpiredOtps table now).2.1 now).2.2 = 0 := by
  refine ⟨?_, ?_, ?_, ?_⟩
  · intro r
    unfold cleanupExpiredOtps
    simp [List.mem_filter]
  · exact List.filter_sublist _
  · unfold cleanupExpiredOtps
    simp only [← List.countP_eq_length_filter]
    exact countP_not_add_countP _ table
  · unfold cleanupExpiredOtps
    simp only [List.countP_eq_zero]
    intro r hr
    rw [List.mem_filter] at hr
    simpa using hr.2

/-- Concrete room used by the witnesses: id 1, capacity 10. -/
def roomW : Room := ⟨1, "Alpha", 10⟩

/-- Concrete confirmed booking used by the witnesses: room 1,
interval `[0, 100)`. -/
def bookingW : Booking :=
  ⟨"ev-1", 1, "Alpha", "Standup", none, "a@b.com", 0, 100, 5, none, none,
   "in-person", "[]", "confirmed", 0, none, none⟩

/-- Concrete cancelled booking used by the witnesses. -/
def cancelledW : Booking :=
  ⟨"ev-9", 1, "Alpha", "Retro", none, "a@b.com", 0, 100, 5, none, none,
   "in-person", "[]", "cancelled", 0, none, some 1⟩

/-- Concrete create request used by the witnesses: room 1,
interval `[200, 300)`, clear of `bookingW`. -/
def createReqW : CreateBookingRequest :=
  ⟨1, "Alpha", "Sync", none, "a@b.com", 200, 300, 5, none, none, none, none⟩

/-- Concrete reschedule request used by the witnesses: room 1,
interval `[400, 500)`. -/
def updateReqW : UpdateBookingRequest :=
  ⟨1, "Standup", none, "a@b.com", 400, 500, 5, none, none, none, none⟩

/-- Concrete reschedule request overlapping only the booking's own current
interval: room 1, interval `[50, 150)` against `bookingW`'s `[0, 100)`. -/
def updateReqSelfW : UpdateBookingRequest :=
  ⟨1, "Standup", none, "a@b.com", 50, 150, 5, none, none, none, none⟩

/-- Concrete reschedule request carrying a different organizer email than
`bookingW` stores. -/
def updateReqOtherW : UpdateBookingRequest :=
  ⟨1, "Standup", none, "other@b.com", 400, 500, 5, none, none, none, none⟩

/-- Concrete admin request used by the witness of the amended C3 claim. -/
def adminReqW : AdminCreateRequest :=
  ⟨1, "Alpha", "Allhands", "x@y.com", 0, 50, 3, none, none, none, none⟩

/-- Witness for the C1 theorem: a concrete store on which both runs preserve
the no-overlap invariant. -/
theorem noConfirmedOverlap_preserved_witness :
    noConfirmedOverlap
      (createBooking [roomW] [bookingW] createReqW "ev-2" 5
        EmailOutcome.ok).2.1 ∧
    noConfirmedOverlap
      (updateBooking [roomW] [bookingW] "ev-1" updateReqW 5
        EmailOutcome.ok).2.1 :=
  noConfirmedOverlap_preserved [roomW] [bookingW] createReqW updateReqW
    "ev-1" "ev-2" 5 EmailOutcome.ok (by decide) (by decide)

/-- Witness for the amended C3 theorem at a concrete request. -/
theorem admin_create_unconditional_insert_witness :
    createBookingAdmin [] adminReqW "ev-3" 9 =
      (⟨201, true, "Booking created by admin successfully."⟩,
       [] ++ [adminBookingOf adminReqW "ev-3" 9]) :=
  admin_create_unconditional_insert [] adminReqW "ev-3" 9 (by decide)

/-- Witness for the C4 theorem: rescheduling `bookingW` onto a range
overlapping only itself succeeds. -/
theorem update_excludes_self_from_conflict_witness :
    (updateBooking [roomW] [bookingW] "ev-1" updateReqSelfW 5
      EmailOutcome.ok).1 = ⟨200, true, "Booking updated successfully!"⟩ :=
  update_excludes_self_from_conflict [roomW] [bookingW] "ev-1"
    updateReqSelfW 5 bookingW roomW (by decide) (by decide) (by decide)
    (by decide) (by decide) (by decide) (by decide) (by decide) (by decide)

/-- Witness for the C5 theorem: rescheduling a cancelled booking is refused
with not-found and writes nothing. -/
theorem update_rejects_missing_or_cancelled_witness :
    updateBooking [roomW] [cancelledW] "ev-9" updateReqW 5 EmailOutcome.ok =
      (⟨404, false, "Original booking not found or already cancelled."⟩,
       [cancelledW], []) :=
  update_rejects_missing_or_cancelled [roomW] [cancelledW] "ev-9" updateReqW
    5 EmailOutcome.ok (by decide) (by decide)

/-- Witness for the C6 theorem: wrong-email cancel and nonexistent-id cancel
coincide on a concrete store. -/
theorem cancel_wrong_email_indistinguishable_witness :
    cancelBooking [bookingW] "ev-1" "evil@x.com" 5 EmailOutcome.ok =
      cancelBooking [bookingW] "ev-404" "whoever@x.com" 6
        EmailOutcome.failed ∧
    (cancelBooking [bookingW] "ev-1" "evil@x.com" 5 EmailOutcome.ok).2 =
      [bookingW] :=
  cancel_wrong_email_indistinguishable [bookingW] "ev-1" "ev-404"
    "evil@x.com" "whoever@x.com" bookingW 5 6 EmailOutcome.ok
    EmailOutcome.failed (by decide) (by decide) (by decide) (by decide)
    (by decide) (by decide) (by decide) (by decide) (by decide) (by decide)

/-- Witness for the C7 theorem at a concrete run with a failing email
send. -/
theorem create_persists_before_notify_witness :
    ((createBooking [roomW] [bookingW] createReqW "ev-2" 5
        EmailOutcome.failed).2.2 = [] ∧
      (createBooking [roomW] [bookingW] createReqW "ev-2" 5
        EmailOutcome.failed).2.1 = [bookingW]) ∨
    (((createBooking [roomW] [bookingW] createReqW "ev-2" 5
        EmailOutcome.failed).2.2 = [Action.dbInsert "ev-2"] ∧
        EmailOutcome.failed = EmailOutcome.skipped) ∨
      (createBooking [roomW] [bookingW] createReqW "ev-2" 5
        EmailOutcome.failed).2.2 =
        [Action.dbInsert "ev-2",
         Action.emailSend createReqW.organizer_email]) ∧
    ((createBooking [roomW] [bookingW] createReqW "ev-2" 5
        EmailOutcome.failed).2.1 =
        [bookingW] ++ [newBookingOf createReqW "ev-2" 5] ∧
      (EmailOutcome.failed = EmailOutcome.failed →
        (createBooking [roomW] [bookingW] createReqW "ev-2" 5
          EmailOutcome.failed).1.status = 500)) :=
  create_persists_before_notify [roomW] [bookingW] createReqW "ev-2" 5
    EmailOutcome.failed

/-- Witness for the C8 theorem: `bookingW` is rescheduled by a caller
supplying a different organizer email, the stored email is overwritten, and
the same caller could not have cancelled it. -/
theorem update_has_no_identity_check_witness :
    (updateBooking [roomW] [bookingW] "ev-1" updateReqOtherW 5
      EmailOutcome.ok).1 = ⟨200, true, "Booking updated successfully!"⟩ ∧
    applyReschedule updateReqOtherW roomW.name 5 bookingW ∈
      (updateBooking [roomW] [bookingW] "ev-1" updateReqOtherW 5
        EmailOutcome.ok).2.1 ∧
    (applyReschedule updateReqOtherW roomW.name 5 bookingW).organizer_email =
      updateReqOtherW.organizer_email ∧
    (bookingW.organizer_email ≠ updateReqOtherW.organizer_email →
      cancelBooking [bookingW] "ev-1" updateReqOtherW.organizer_email 5
        EmailOutcome.ok =
        (⟨404, false,
          "Booking not found or not eligible for cancellation by this email."⟩,
         [bookingW])) :=
  update_has_no_identity_check [roomW] [bookingW] "ev-1" updateReqOtherW 5
    bookingW roomW (by decide) (by decide) (by decide) (by decide)
    (by decide) (by decide) (by decide) (by decide)

/-- Concrete OTP table used by the witnesses: one verified record for
`a@b.com` and one record for another address. -/
def otpTableW : List OtpRecord :=
  [⟨"a@b.com", "111111", 100, 50, true⟩,
   ⟨"c@d.com", "222222", 900000, 50, false⟩]

/-- Witness for the C9 theorem: resending to `a@b.com` overwrites its record
in place and leaves `c@d.com` untouched. -/
theorem sendOtp_stores_single_fresh_code_witness :
    (natToDecString 123456).length = 6 ∧
    (otpRecordOf "a@b.com" 123456 1000).expires_at =
      (otpRecordOf "a@b.com" 123456 1000).created_at + 5 * 60 * 1000 ∧
    otpRecordOf "a@b.com" 123456 1000 ∈
      (sendOtp otpTableW "a@b.com" 123456 1000 true).2 ∧
    (∀ r ∈ (sendOtp otpTableW "a@b.com" 123456 1000 true).2,
      r.email = "a@b.com" → r = otpRecordOf "a@b.com" 123456 1000) ∧
    (∀ r ∈ (sendOtp otpTableW "a@b.com" 123456 1000 true).2,
      r.email ≠ "a@b.com" → r ∈ otpTableW) ∧
    (((sendOtp otpTableW "a@b.com" 123456 1000 true).2).map
      OtpRecord.email).Nodup :=
  sendOtp_stores_single_fresh_code otpTableW "a@b.com" 123456 1000 true
    (by decide) (by decide) (by decide) (by decide)

/-- Witness for the C10 theorem on a concrete table with one expired and one
live record. -/
theorem cleanup_deletes_exactly_expired_witness :
    (∀ r : OtpRecord, r ∈ (cleanupExpiredOtps otpTableW 500).2.1 ↔
      r ∈ otpTableW ∧ ¬ r.expires_at < 500) ∧
    (cleanupExpiredOtps otpTableW 500).2.1.Sublist otpTableW ∧
    (cleanupExpiredOtps otpTableW 500).2.1.length +
      (cleanupExpiredOtps otpTableW 500).2.2 = otpTableW.length ∧
    (cleanupExpiredOtps (cleanupExpiredOtps otpTableW 500).2.1 500).2.2 = 0 :=
  cleanup_deletes_exactly_expired otpTableW 500

end BookingModel
